import Mathlib

/-!
Shallow embedding of the container-recreation script of
minecraft-bedrock-server-manager (the Node script embedded in
`src/docker-entrypoint.sh`, lines 299-575): network/port policy
(`requiresPortMapping`, `applyPortConfig`, `applyNetworkConfig`),
container-spec construction (`buildContainerEnv`, the container config
literal of `recreateServers`), host data-path discovery
(`getHostDataPath`) and the batch reconciliation loop (`recreateServers`),
together with proofs of the specification's claims about them.

JavaScript truthiness is modelled explicitly: a missing field is `none`,
and `a || b` on strings treats the empty string as falsy; `a || b` on
numbers treats `0` as falsy.
-/

namespace BedrockManager

/-- JS `a || b` where `a : String | undefined` and the result is the
default when `a` is undefined or empty (falsy). -/
def jsOr (a : Option String) (b : String) : String :=
  match a with
  | none => b
  | some s => if s = "" then b else s

/-- JS `a || b` where both sides may be `undefined`/`null`; the empty
string on the left is falsy. Models `metadata.network || DOCKER_NETWORK`. -/
def jsOrOpt (a b : Option String) : Option String :=
  match a with
  | none => b
  | some s => if s = "" then b else some s

/-- JS `a || b` on numbers, where `0` and `undefined` are falsy.
Models `metadata.memory || 2147483648`. -/
def jsOrInt (a : Option Int) (b : Int) : Int :=
  match a with
  | none => b
  | some n => if n = 0 then b else n

/-- JS `String.prototype.toLowerCase`, restricted to the ASCII mapping
(`Char.toLower`), which agrees with JS on the ASCII search patterns used
by the script. -/
def jsToLowerCase (s : String) : String :=
  String.mk (s.data.map Char.toLower)

/-- Substring search on character lists: does `needle` occur contiguously
inside the list? Implements JS `String.prototype.includes`. -/
def infixCheck (needle : List Char) : List Char → Bool
  | [] => needle.isEmpty
  | c :: rest => needle.isPrefixOf (c :: rest) || infixCheck needle rest

/-- JS `haystack.includes(needle)`. -/
def jsIncludes (haystack needle : String) : Bool :=
  infixCheck needle.data haystack.data

/-- The fields of a `metadata.json` record that the script reads, plus the
optional stored port that the repository's metadata records carry.
A missing JSON field is `none`. -/
structure Metadata where
  name : Option String := none
  version : Option String := none
  memory : Option Int := none
  network : Option String := none
  port : Option Nat := none
deriving DecidableEq, Repr

/-- The effective network used throughout the script:
`metadata.network || DOCKER_NETWORK` (JS truthiness). -/
def effectiveNetwork (md : Metadata) (dockerNetwork : Option String) : Option String :=
  jsOrOpt md.network dockerNetwork

/-- The network modes that bypass port mapping (`noPortMappingModes`). -/
def noPortMappingModes : List String := ["macvlan", "ipvlan"]

/-- The helper `requiresPortMapping(metadata)` from the script:
```
const networkMode = metadata.network || DOCKER_NETWORK;
if (!networkMode) return true;
const noPortMappingModes = ['macvlan', 'ipvlan'];
return !noPortMappingModes.some(mode => networkMode.toLowerCase().includes(mode));
```
`DOCKER_NETWORK` is passed explicitly as `dockerNetwork`. -/
def requiresPortMapping (md : Metadata) (dockerNetwork : Option String) : Bool :=
  match effectiveNetwork md dockerNetwork with
  | none => true
  | some networkMode =>
    if networkMode = "" then true
    else ! noPortMappingModes.any (fun mode => jsIncludes (jsToLowerCase networkMode) mode)

/-- The helper `buildContainerEnv(metadata)` from the script; `enableSSH` is the
process-wide `ENABLE_SSH` toggle. -/
def buildContainerEnv (md : Metadata) (enableSSH : Bool) : List String :=
  let env := ["EULA=TRUE",
              "VERSION=" ++ jsOr md.version "LATEST",
              "SERVER_NAME=" ++ jsOr md.name "Bedrock Server"]
  if enableSSH then env ++ ["ENABLE_SSH=TRUE"] else env

/-- One entry of a container's `Mounts` array as returned by
`docker.listContainers`. -/
structure Mount where
  destination : String
  source : String
deriving DecidableEq, Repr

/-- A container as seen through `docker.listContainers({ all: true })`:
its id, its `State` string (e.g. `"running"`, `"exited"`), its labels and
its mounts. `listContainers({ all: true })` returns stopped containers
too, so `state` is arbitrary. -/
structure ContainerInfo where
  id : String
  state : String
  labels : List (String × String)
  mounts : List Mount
deriving DecidableEq, Repr

/-- Label lookup `c.Labels?.[k]`: association lookup in a container's labels. -/
def getLabel (c : ContainerInfo) (k : String) : Option String :=
  (c.labels.find? (fun kv => kv.1 == k)).map (fun kv => kv.2)

/-- The Docker daemon's container list, as far as the script observes it. -/
structure DockerState where
  containers : List ContainerInfo
deriving DecidableEq, Repr

/-- The check `containers.find(c => c.Labels?.['server-id'] === serverId)` as an
existence check. -/
def hasContainerFor (st : DockerState) (serverId : String) : Bool :=
  st.containers.any (fun c => getLabel c "server-id" == some serverId)

/-- Number of containers whose `server-id` label equals `serverId`. -/
def countContainersFor (st : DockerState) (serverId : String) : Nat :=
  st.containers.countP (fun c => getLabel c "server-id" == some serverId)

/-- One element of a `PortBindings` value: `{ HostPort: ... }`. -/
structure PortBinding where
  hostPort : String
deriving DecidableEq, Repr

/-- The `HostConfig` object of the container config literal built in
`recreateServers`, plus the fields added by `applyNetworkConfig` /
`applyPortConfig`. -/
structure HostConfig where
  binds : List String
  restartPolicyName : String
  memory : Int
  networkMode : Option String := none
  portBindings : Option (List (String × List PortBinding)) := none
deriving DecidableEq, Repr

/-- The container config passed to `docker.createContainer`. `ExposedPorts`
is a set of port keys (its JS values are empty objects). -/
structure ContainerConfig where
  image : String
  name : String
  labels : List (String × String)
  env : List String
  hostConfig : HostConfig
  exposedPorts : Option (List String) := none
deriving DecidableEq, Repr

/-- The process-wide configuration the script reads from the environment:
`DOCKER_NETWORK`, `ENABLE_SSH`, `BEDROCK_IMAGE` (a constant in this
script), `DATA_DIR`. -/
structure WorldCfg where
  dockerNetwork : Option String := none
  enableSSH : Bool := false
  bedrockImage : String := "itzg/minecraft-bedrock-server"
  dataDir : String := "/opt/minecraft-servers"
deriving DecidableEq, Repr

/-- Node `path.join(a, b)` for the simple two-segment case the script uses. -/
def pathJoin (a b : String) : String := a ++ "/" ++ b

/-- The container config literal of `recreateServers` (before
`applyNetworkConfig` and `applyPortConfig` run):
image, name, labels, env, binds, restart policy and memory limit. -/
def buildContainerConfig (cfg : WorldCfg) (hostDataPath serverId : String)
    (md : Metadata) : ContainerConfig :=
  { image := cfg.bedrockImage
    name := serverId
    labels := [("server-id", serverId),
               ("server-name", jsOr md.name "Bedrock Server")]
    env := buildContainerEnv md cfg.enableSSH
    hostConfig :=
      { binds := [pathJoin hostDataPath serverId ++ ":/data"]
        restartPolicyName := "unless-stopped"
        memory := jsOrInt md.memory 2147483648 } }

/-- The helper `applyNetworkConfig(containerConfig, metadata)`: sets
`HostConfig.NetworkMode` to the effective network when one is (truthily)
configured. -/
def applyNetworkConfig (cc : ContainerConfig) (md : Metadata)
    (dockerNetwork : Option String) : ContainerConfig :=
  match effectiveNetwork md dockerNetwork with
  | none => cc
  | some s =>
    if s = "" then cc
    else { cc with hostConfig := { cc.hostConfig with networkMode := some s } }

/-- The helper `applyPortConfig(containerConfig, metadata)`: for macvlan/ipvlan
networks, expose 19132/udp with no host binding and return `null`;
otherwise bind 19132/udp to host port `'19132'` and return `19132`. -/
def applyPortConfig (cc : ContainerConfig) (md : Metadata)
    (dockerNetwork : Option String) : ContainerConfig × Option Nat :=
  if !requiresPortMapping md dockerNetwork then
    ({ cc with exposedPorts := some ["19132/udp"] }, none)
  else
    ({ cc with hostConfig :=
        { cc.hostConfig with
          portBindings := some [("19132/udp", [{ hostPort := "19132" }])] } },
     some 19132)

/-- First mount with `Destination === '/app/minecraft-data'` found while
scanning the container list in order (the loop of `getHostDataPath`). -/
def findDataMount : List ContainerInfo → Option Mount
  | [] => none
  | c :: rest =>
    match c.mounts.find? (fun m => m.destination == "/app/minecraft-data") with
    | some m => some m
    | none => findDataMount rest

/-- The helper `getHostDataPath()`: if listing containers fails, or no container has
a mount to `/app/minecraft-data`, return `DATA_DIR`; otherwise the first
matching mount's source. `listResult` stands for the outcome of the
`docker.listContainers({ all: true })` call. -/
def getHostDataPath (listResult : Except String (List ContainerInfo))
    (dataDir : String) : String :=
  match listResult with
  | .error _ => dataDir
  | .ok cs =>
    match findDataMount cs with
    | none => dataDir
    | some m => m.source

/-- Outcome of reading a server directory's `metadata.json`:
the file is absent, `fs.readJson` throws, or it parses to a record. -/
inductive MetaRead where
  | noFile
  | corrupt
  | ok (md : Metadata)
deriving DecidableEq, Repr

/-- Per-server behaviour of the external world during one loop iteration:
the metadata read, whether `docker.listContainers` succeeds, whether the
image is present locally, and whether `docker.pull` /
`createContainer`+`start` succeed. -/
structure ServerBehavior where
  meta : MetaRead
  listOk : Bool := true
  imagePresent : Bool := true
  pullOk : Bool := true
  createOk : Bool := true
deriving DecidableEq, Repr

/-- How one loop iteration of `recreateServers` ended: skipped for lack of
`metadata.json` (no count), skipped because a container already exists
(no count), created and started (`successCount++`), or caught by the
per-server `catch` (`failureCount++`). -/
inductive Outcome where
  | skippedNoMeta
  | alreadyExists
  | created
  | failed
deriving DecidableEq, Repr

/-- The Docker API calls the script can issue, in the order they appear in
its trace. `resolveHostPath` marks the one `getHostDataPath()` call made
before the loop. -/
inductive DockerCall where
  | resolveHostPath
  | listContainers
  | imageInspect
  | pullImage
  | createContainer
  | startContainer
  | inspectContainer
deriving DecidableEq, Repr

/-- Result of one loop iteration: the Docker state afterwards, the
iteration's outcome and the API calls it issued. -/
structure StepResult where
  state : DockerState
  outcome : Outcome
  trace : List DockerCall
deriving DecidableEq, Repr

/-- The container the daemon holds after `createContainer` + `start`
succeed for config `cc` (name, labels from the config; started). -/
def mkContainer (cc : ContainerConfig) : ContainerInfo :=
  { id := cc.name, state := "running", labels := cc.labels, mounts := [] }

/-- Shared tail of the loop body: `docker.createContainer` then `start`
(they sit in the same per-server `try`, so a failure of either yields one
counted failure). -/
def finishCreate (b : ServerBehavior) (cc : ContainerConfig)
    (st : DockerState) (tr : List DockerCall) : StepResult :=
  if b.createOk then
    { state := { containers := mkContainer cc :: st.containers }
      outcome := .created
      trace := tr ++ [.createContainer, .startContainer, .inspectContainer] }
  else
    { state := st, outcome := .failed, trace := tr ++ [.createContainer] }

/-- One iteration of the `for (const serverId of serverDirs)` loop of
`recreateServers`: metadata check/read, idempotency check against the
`server-id` label (skipped when listing fails — the error is only
logged), config construction, network and port application, image
inspect/pull, then create + start. -/
def processServer (cfg : WorldCfg) (b : ServerBehavior)
    (hostDataPath serverId : String) (st : DockerState) : StepResult :=
  match b.meta with
  | .noFile => { state := st, outcome := .skippedNoMeta, trace := [] }
  | .corrupt => { state := st, outcome := .failed, trace := [] }
  | .ok md =>
    if b.listOk && hasContainerFor st serverId then
      { state := st, outcome := .alreadyExists, trace := [.listContainers] }
    else
      let cc0 := buildContainerConfig cfg hostDataPath serverId md
      let cc1 := applyNetworkConfig cc0 md cfg.dockerNetwork
      let cc2 := (applyPortConfig cc1 md cfg.dockerNetwork).1
      if b.imagePresent then
        finishCreate b cc2 st [.listContainers, .imageInspect]
      else if b.pullOk then
        finishCreate b cc2 st [.listContainers, .imageInspect, .pullImage]
      else
        { state := st, outcome := .failed
          trace := [.listContainers, .imageInspect, .pullImage] }

/-- Result of the whole batch: final Docker state, the reported success
and failure counters, the per-directory outcomes in order, and the Docker
API calls issued. -/
structure BatchResult where
  state : DockerState
  successCount : Nat
  failureCount : Nat
  outcomes : List Outcome
  trace : List DockerCall
deriving DecidableEq, Repr

/-- The loop of `recreateServers` over the server directories, threading
the Docker state and accumulating the two counters. -/
def runLoop (cfg : WorldCfg) (beh : String → ServerBehavior)
    (hostDataPath : String) : List String → DockerState → BatchResult
  | [], st => { state := st, successCount := 0, failureCount := 0,
                outcomes := [], trace := [] }
  | d :: rest, st =>
    let r := processServer cfg (beh d) hostDataPath d st
    let tail := runLoop cfg beh hostDataPath rest r.state
    { state := tail.state
      successCount := (if r.outcome = .created then 1 else 0) + tail.successCount
      failureCount := (if r.outcome = .failed then 1 else 0) + tail.failureCount
      outcomes := r.outcome :: tail.outcomes
      trace := r.trace ++ tail.trace }

/-- The main function `recreateServers()`: resolve the host data path once (from the
outcome `hostListResult` of its `listContainers` call), then run the loop
over the server directories. -/
def recreateServers (cfg : WorldCfg) (beh : String → ServerBehavior)
    (hostListResult : Except String (List ContainerInfo))
    (dirs : List String) (st : DockerState) : BatchResult :=
  let hostDataPath := getHostDataPath hostListResult cfg.dataDir
  let r := runLoop cfg beh hostDataPath dirs st
  { r with trace := .resolveHostPath :: r.trace }

/-- The container config as it stands when `recreateServers` passes it to
`docker.createContainer`: the config literal, then `applyNetworkConfig`,
then `applyPortConfig`. -/
def ccFinal (cfg : WorldCfg) (hostDataPath serverId : String)
    (md : Metadata) : ContainerConfig :=
  (applyPortConfig
    (applyNetworkConfig (buildContainerConfig cfg hostDataPath serverId md)
      md cfg.dockerNetwork)
    md cfg.dockerNetwork).1

/-- A metadata record with a stored port and an effective network that
requires port mapping. -/
def mdWithStoredPort : Metadata := { port := some 19200 }

/-- Behaviour for the C3 witness: three directories, the middle one with
a corrupted metadata record. -/
def behWithOneCorrupt : String → ServerBehavior := fun d =>
  if d = "bedrock-2" then { meta := .corrupt } else { meta := .ok {} }

/-- A running manager container with the data mount, for the C7 witness. -/
def runningManager : ContainerInfo :=
  { id := "mgr", state := "running", labels := [],
    mounts := [{ destination := "/app/minecraft-data",
                 source := "/srv/minecraft-data" }] }

/-- Case-insensitive substring containment, stated independently of the
code's search routine: the lower-cased characters of `s` contain the
characters of `pat` as a contiguous run. -/
def ContainsCI (s pat : String) : Prop :=
  ∃ pre suf : List Char, s.data.map Char.toLower = pre ++ pat.data ++ suf

theorem isPrefixOf_iff_exists_append :
    ∀ (n l : List Char), n.isPrefixOf l = true ↔ ∃ t, n ++ t = l
  | [], l => by simp [List.isPrefixOf]
  | _ :: _, [] => by simp [List.isPrefixOf]
  | a :: as, b :: bs => by
    simp only [List.isPrefixOf, Bool.and_eq_true, beq_iff_eq, List.cons_append,
      List.cons.injEq]
    constructor
    · rintro ⟨rfl, h⟩
      obtain ⟨t, rfl⟩ := (isPrefixOf_iff_exists_append as bs).1 h
      exact ⟨t, rfl, rfl⟩
    · rintro ⟨t, rfl, rfl⟩
      exact ⟨rfl, (isPrefixOf_iff_exists_append as (as ++ t)).2 ⟨t, rfl⟩⟩

theorem infixCheck_iff (n : List Char) :
    ∀ l, infixCheck n l = true ↔ ∃ p s, l = p ++ n ++ s
  | [] => by
    simp only [infixCheck, List.isEmpty_iff]
    constructor
    · rintro rfl; exact ⟨[], [], rfl⟩
    · rintro ⟨p, s, h⟩
      rcases List.append_eq_nil.1 (List.append_eq_nil.1 h.symm).1 with ⟨-, hn⟩
      exact hn
  | c :: rest => by
    simp only [infixCheck, Bool.or_eq_true]
    rw [isPrefixOf_iff_exists_append, infixCheck_iff n rest]
    constructor
    · rintro (⟨t, h⟩ | ⟨p, s, rfl⟩)
      · exact ⟨[], t, by simpa using h.symm⟩
      · exact ⟨c :: p, s, rfl⟩
    · rintro ⟨p, s, h⟩
      cases p with
      | nil => exact Or.inl ⟨s, by simpa using h.symm⟩
      | cons x p' =>
        simp only [List.cons_append, List.cons.injEq] at h
        exact Or.inr ⟨p', s, h.2⟩

theorem jsIncludes_toLower_iff (s pat : String) :
    jsIncludes (jsToLowerCase s) pat = true ↔ ContainsCI s pat := by
  show infixCheck pat.data (s.data.map Char.toLower) = true ↔ _
  rw [infixCheck_iff]
  constructor
  · rintro ⟨p, q, h⟩; exact ⟨p, q, h⟩
  · rintro ⟨p, q, h⟩; exact ⟨p, q, h⟩

theorem not_containsCI_empty_macvlan : ¬ ContainsCI "" "macvlan" := by
  rintro ⟨p, s, h⟩
  have hl := congrArg List.length h
  have h7 : "macvlan".data.length = 7 := rfl
  simp only [List.length_append, h7] at hl
  simp at hl
  omega

theorem not_containsCI_empty_ipvlan : ¬ ContainsCI "" "ipvlan" := by
  rintro ⟨p, s, h⟩
  have hl := congrArg List.length h
  have h6 : "ipvlan".data.length = 6 := rfl
  simp only [List.length_append, h6] at hl
  simp at hl
  omega

/-- C1: `requiresPortMapping(metadata)` is `false` exactly when the
effective network (`metadata.network` when truthy, else the global
default) contains the substring `"macvlan"` or `"ipvlan"`
case-insensitively; for every other effective network value, including
when no network is set at all, it is `true`. -/
theorem requiresPortMapping_false_iff (md : Metadata) (gd : Option String) :
    requiresPortMapping md gd = false ↔
      ∃ eff, effectiveNetwork md gd = some eff ∧
        (ContainsCI eff "macvlan" ∨ ContainsCI eff "ipvlan") := by
  unfold requiresPortMapping
  cases h : effectiveNetwork md gd with
  | none => simp
  | some s =>
    by_cases hs : s = ""
    · subst hs
      simp only [if_pos rfl, Option.some.injEq]
      constructor
      · intro hcontra; exact absurd hcontra (by simp)
      · rintro ⟨eff, rfl, hcl | hcl⟩
        · exact absurd hcl not_containsCI_empty_macvlan
        · exact absurd hcl not_containsCI_empty_ipvlan
    · simp only [if_neg hs, Bool.not_eq_false', noPortMappingModes,
        List.any_cons, List.any_nil, Bool.or_false, Bool.or_eq_true,
        jsIncludes_toLower_iff, Option.some.injEq]
      constructor
      · intro hor; exact ⟨s, rfl, hor⟩
      · rintro ⟨eff, rfl, hor⟩; exact hor

/-- Instance of C1 at concrete inputs. -/
theorem requiresPortMapping_false_iff_witness :
    requiresPortMapping { network := some "Minecraft-MACVLAN" } (some "bridge") = false ↔
      ∃ eff, effectiveNetwork { network := some "Minecraft-MACVLAN" } (some "bridge") = some eff ∧
        (ContainsCI eff "macvlan" ∨ ContainsCI eff "ipvlan") :=
  requiresPortMapping_false_iff { network := some "Minecraft-MACVLAN" } (some "bridge")

theorem applyNetworkConfig_labels (cc : ContainerConfig) (md : Metadata)
    (gd : Option String) : (applyNetworkConfig cc md gd).labels = cc.labels := by
  unfold applyNetworkConfig
  cases effectiveNetwork md gd with
  | none => rfl
  | some s =>
    by_cases hs : s = "" <;> simp [hs]

theorem applyNetworkConfig_portBindings (cc : ContainerConfig) (md : Metadata)
    (gd : Option String) :
    (applyNetworkConfig cc md gd).hostConfig.portBindings = cc.hostConfig.portBindings := by
  unfold applyNetworkConfig
  cases effectiveNetwork md gd with
  | none => rfl
  | some s =>
    by_cases hs : s = "" <;> simp [hs]

theorem applyPortConfig_labels (cc : ContainerConfig) (md : Metadata)
    (gd : Option String) : (applyPortConfig cc md gd).1.labels = cc.labels := by
  unfold applyPortConfig
  by_cases h : requiresPortMapping md gd <;> simp [h]

theorem ssh_entry_ne_version (x : String) : "ENABLE_SSH=TRUE" ≠ "VERSION=" ++ x := by
  intro h
  have h1 : ("ENABLE_SSH=TRUE" : String).data.head? = some 'E' := rfl
  have h2 : (("VERSION=" ++ x : String)).data.head? = some 'V' := rfl
  rw [h, h2] at h1
  exact absurd (Option.some.inj h1) (by decide)

theorem ssh_entry_ne_server_name (x : String) :
    "ENABLE_SSH=TRUE" ≠ "SERVER_NAME=" ++ x := by
  intro h
  have h1 : ("ENABLE_SSH=TRUE" : String).data.head? = some 'E' := rfl
  have h2 : (("SERVER_NAME=" ++ x : String)).data.head? = some 'S' := rfl
  rw [h, h2] at h1
  exact absurd (Option.some.inj h1) (by decide)

/-- C6: the container environment always contains EULA acceptance, a
version entry (defaulting to `"LATEST"` when `metadata.version` is
absent) and a display-name entry (defaulting to `"Bedrock Server"` when
`metadata.name` is absent); the SSH-enable entry is present iff the
global `ENABLE_SSH` toggle is on. -/
theorem buildContainerEnv_contract (md : Metadata) (ssh : Bool) :
    "EULA=TRUE" ∈ buildContainerEnv md ssh ∧
    (∃ v, ("VERSION=" ++ v) ∈ buildContainerEnv md ssh) ∧
    (md.version = none → "VERSION=LATEST" ∈ buildContainerEnv md ssh) ∧
    (∃ n, ("SERVER_NAME=" ++ n) ∈ buildContainerEnv md ssh) ∧
    (md.name = none → "SERVER_NAME=Bedrock Server" ∈ buildContainerEnv md ssh) ∧
    (("ENABLE_SSH=TRUE" ∈ buildContainerEnv md ssh) ↔ ssh = true) := by
  refine ⟨?_, ?_, ?_, ?_, ?_, ?_⟩
  · unfold buildContainerEnv; cases ssh <;> simp
  · refine ⟨jsOr md.version "LATEST", ?_⟩
    unfold buildContainerEnv; cases ssh <;> simp
  · intro h
    have hv : jsOr md.version "LATEST" = "LATEST" := by simp [jsOr, h]
    unfold buildContainerEnv
    rw [hv]
    cases ssh <;> simp
  · refine ⟨jsOr md.name "Bedrock Server", ?_⟩
    unfold buildContainerEnv; cases ssh <;> simp
  · intro h
    have hn : jsOr md.name "Bedrock Server" = "Bedrock Server" := by simp [jsOr, h]
    unfold buildContainerEnv
    rw [hn]
    cases ssh <;> simp
  · unfold buildContainerEnv
    cases ssh with
    | true => simp
    | false =>
      simp only [Bool.false_eq_true, if_false, iff_false, List.mem_cons,
        List.not_mem_nil, or_false]
      rintro (h | h | h)
      · exact absurd h (by decide)
      · exact ssh_entry_ne_version _ h
      · exact ssh_entry_ne_server_name _ h

/-- Instance of C6 at concrete inputs (absent version and name, SSH on). -/
theorem buildContainerEnv_contract_witness :
    ({} : Metadata).version = none ∧ ({} : Metadata).name = none ∧
    ("EULA=TRUE" ∈ buildContainerEnv {} true ∧
      (∃ v, ("VERSION=" ++ v) ∈ buildContainerEnv {} true) ∧
      (({} : Metadata).version = none → "VERSION=LATEST" ∈ buildContainerEnv {} true) ∧
      (∃ n, ("SERVER_NAME=" ++ n) ∈ buildContainerEnv {} true) ∧
      (({} : Metadata).name = none → "SERVER_NAME=Bedrock Server" ∈ buildContainerEnv {} true) ∧
      (("ENABLE_SSH=TRUE" ∈ buildContainerEnv {} true) ↔ true = true)) :=
  ⟨rfl, rfl, buildContainerEnv_contract {} true⟩

/-- C5: when the effective network does not require port mapping
(macvlan/ipvlan), the built spec exposes 19132/udp with no host port
binding, and the port decision (`applyPortConfig`'s return value) carries
no exposed host port. -/
theorem applyPortConfig_no_mapping (cfg : WorldCfg) (hostDataPath serverId : String)
    (md : Metadata)
    (h : requiresPortMapping md cfg.dockerNetwork = false) :
    (ccFinal cfg hostDataPath serverId md).exposedPorts = some ["19132/udp"] ∧
    (ccFinal cfg hostDataPath serverId md).hostConfig.portBindings = none ∧
    (applyPortConfig
        (applyNetworkConfig (buildContainerConfig cfg hostDataPath serverId md)
          md cfg.dockerNetwork)
        md cfg.dockerNetwork).2 = none := by
  unfold ccFinal applyPortConfig
  rw [h]
  simp only [Bool.not_false, if_pos rfl]
  refine ⟨rfl, ?_, rfl⟩
  show (applyNetworkConfig (buildContainerConfig cfg hostDataPath serverId md)
      md cfg.dockerNetwork).hostConfig.portBindings = none
  rw [applyNetworkConfig_portBindings]
  rfl

/-- Instance of C5 at the spec's example metadata
`{network: "minecraft-macvlan"}`. -/
theorem applyPortConfig_no_mapping_witness :
    requiresPortMapping { network := some "minecraft-macvlan" } ({} : WorldCfg).dockerNetwork = false ∧
    ((ccFinal {} "/opt/minecraft-servers" "bedrock-abc" { network := some "minecraft-macvlan" }).exposedPorts = some ["19132/udp"] ∧
      (ccFinal {} "/opt/minecraft-servers" "bedrock-abc" { network := some "minecraft-macvlan" }).hostConfig.portBindings = none ∧
      (applyPortConfig
          (applyNetworkConfig
            (buildContainerConfig {} "/opt/minecraft-servers" "bedrock-abc"
              { network := some "minecraft-macvlan" })
            { network := some "minecraft-macvlan" } ({} : WorldCfg).dockerNetwork)
          { network := some "minecraft-macvlan" } ({} : WorldCfg).dockerNetwork).2 = none) :=
  ⟨by decide,
    applyPortConfig_no_mapping {} "/opt/minecraft-servers" "bedrock-abc"
      { network := some "minecraft-macvlan" } (by decide)⟩

/-- C4 fails on the code: with a stored port of 19200 and port mapping
required, the built spec still binds host port `"19132"`; the
metadata-stored port never overrides the host port. -/
theorem storedPort_does_not_override :
    requiresPortMapping mdWithStoredPort none = true ∧
    mdWithStoredPort.port = some 19200 ∧
    (applyPortConfig
        (buildContainerConfig {} "/opt/minecraft-servers" "bedrock-abc" mdWithStoredPort)
        mdWithStoredPort none).1.hostConfig.portBindings
      = some [("19132/udp", [{ hostPort := "19132" }])] ∧
    ("19132" : String) ≠ "19200" := by
  refine ⟨by decide, rfl, by decide, by decide⟩

/-- C4 amended: whenever the effective network requires port mapping, the
spec binds 19132/udp to host port `"19132"` and the decision reports port
19132; the metadata-stored port is ignored (changing it changes
nothing). -/
theorem applyPortConfig_mapping (cc : ContainerConfig) (md : Metadata)
    (gd : Option String)
    (h : requiresPortMapping md gd = true) :
    (applyPortConfig cc md gd).1.hostConfig.portBindings
        = some [("19132/udp", [{ hostPort := "19132" }])] ∧
    (applyPortConfig cc md gd).2 = some 19132 ∧
    (∀ p, applyPortConfig cc { md with port := p } gd = applyPortConfig cc md gd) := by
  refine ⟨?_, ?_, fun _ => rfl⟩ <;>
    · unfold applyPortConfig
      rw [h]
      rfl

/-- Instance of C4's amended claim at concrete inputs. -/
theorem applyPortConfig_mapping_witness :
    requiresPortMapping mdWithStoredPort none = true ∧
    ((applyPortConfig
          (buildContainerConfig {} "/opt/minecraft-servers" "bedrock-abc" mdWithStoredPort)
          mdWithStoredPort none).1.hostConfig.portBindings
        = some [("19132/udp", [{ hostPort := "19132" }])] ∧
      (applyPortConfig
          (buildContainerConfig {} "/opt/minecraft-servers" "bedrock-abc" mdWithStoredPort)
          mdWithStoredPort none).2 = some 19132 ∧
      (∀ p, applyPortConfig
          (buildContainerConfig {} "/opt/minecraft-servers" "bedrock-abc" mdWithStoredPort)
          { mdWithStoredPort with port := p } none
        = applyPortConfig
            (buildContainerConfig {} "/opt/minecraft-servers" "bedrock-abc" mdWithStoredPort)
            mdWithStoredPort none)) :=
  ⟨by decide,
    applyPortConfig_mapping
      (buildContainerConfig {} "/opt/minecraft-servers" "bedrock-abc" mdWithStoredPort)
      mdWithStoredPort none (by decide)⟩

theorem hasContainerFor_eq_false_of_count_zero (st : DockerState) (sid : String)
    (h : countContainersFor st sid = 0) : hasContainerFor st sid = false := by
  unfold countContainersFor at h
  unfold hasContainerFor
  rw [List.countP_eq_zero] at h
  rw [List.any_eq_false]
  exact h

theorem countContainersFor_cons (c : ContainerInfo) (cs : List ContainerInfo)
    (sid : String) :
    countContainersFor ⟨c :: cs⟩ sid =
      countContainersFor ⟨cs⟩ sid
        + (if getLabel c "server-id" == some sid then 1 else 0) := by
  unfold countContainersFor
  exact List.countP_cons _ _ _

theorem hasContainerFor_cons (c : ContainerInfo) (cs : List ContainerInfo)
    (sid : String) :
    hasContainerFor ⟨c :: cs⟩ sid =
      ((getLabel c "server-id" == some sid) || hasContainerFor ⟨cs⟩ sid) := rfl

theorem getLabel_ccFinal (cfg : WorldCfg) (hdp sid : String) (md : Metadata) :
    getLabel (mkContainer (ccFinal cfg hdp sid md)) "server-id" = some sid := by
  show ((ccFinal cfg hdp sid md).labels.find?
      (fun kv => kv.1 == "server-id")).map (fun kv => kv.2) = some sid
  unfold ccFinal
  rw [applyPortConfig_labels, applyNetworkConfig_labels]
  simp [buildContainerConfig]

theorem processServer_noFile (cfg : WorldCfg) (b : ServerBehavior)
    (hdp sid : String) (st : DockerState) (hmeta : b.meta = .noFile) :
    processServer cfg b hdp sid st
      = { state := st, outcome := .skippedNoMeta, trace := [] } := by
  unfold processServer
  rw [hmeta]

theorem processServer_corrupt (cfg : WorldCfg) (b : ServerBehavior)
    (hdp sid : String) (st : DockerState) (hmeta : b.meta = .corrupt) :
    processServer cfg b hdp sid st
      = { state := st, outcome := .failed, trace := [] } := by
  unfold processServer
  rw [hmeta]

theorem processServer_already_exists (cfg : WorldCfg) (b : ServerBehavior)
    (md : Metadata) (hdp sid : String) (st : DockerState)
    (hmeta : b.meta = .ok md) (hlist : b.listOk = true)
    (hhas : hasContainerFor st sid = true) :
    processServer cfg b hdp sid st
      = { state := st, outcome := .alreadyExists,
          trace := [DockerCall.listContainers] } := by
  unfold processServer
  rw [hmeta]
  simp [hlist, hhas]

theorem processServer_creates (cfg : WorldCfg) (b : ServerBehavior)
    (md : Metadata) (hdp sid : String) (st : DockerState)
    (hmeta : b.meta = .ok md)
    (hskip : (b.listOk && hasContainerFor st sid) = false)
    (hcreate : b.createOk = true)
    (himg : b.imagePresent = true ∨ b.pullOk = true) :
    (processServer cfg b hdp sid st).state
        = ⟨mkContainer (ccFinal cfg hdp sid md) :: st.containers⟩ ∧
    (processServer cfg b hdp sid st).outcome = .created ∧
    (processServer cfg b hdp sid st).trace
        = [DockerCall.listContainers, DockerCall.imageInspect]
          ++ (if b.imagePresent then [] else [DockerCall.pullImage])
          ++ [DockerCall.createContainer, DockerCall.startContainer,
              DockerCall.inspectContainer] := by
  unfold processServer
  rw [hmeta]
  simp only [hskip, Bool.false_eq_true, if_false]
  cases himgp : b.imagePresent with
  | true =>
    simp only [if_true]
    unfold finishCreate
    simp only [hcreate, if_true]
    simp [ccFinal]
  | false =>
    have hpull : b.pullOk = true := by
      rcases himg with h | h
      · rw [himgp] at h; exact absurd h (by decide)
      · exact h
    simp only [Bool.false_eq_true, if_false, hpull, if_true]
    unfold finishCreate
    simp only [hcreate, if_true]
    simp [ccFinal]

/-- C2: create is idempotent. Starting from a state with no container
labelled `sid`, the create step creates one container and reports
`created`; a second create step for the same `sid` finds the container by
its `server-id` label, reports `alreadyExists`, leaves the state
untouched, and the state holds exactly one container labelled `sid`
throughout. -/
theorem create_is_idempotent (cfg : WorldCfg) (b : ServerBehavior)
    (md : Metadata) (hdp sid : String) (st : DockerState)
    (hmeta : b.meta = .ok md) (hlist : b.listOk = true)
    (hcreate : b.createOk = true)
    (himg : b.imagePresent = true ∨ b.pullOk = true)
    (hzero : countContainersFor st sid = 0) :
    (processServer cfg b hdp sid st).outcome = .created ∧
    countContainersFor (processServer cfg b hdp sid st).state sid = 1 ∧
    (processServer cfg b hdp sid (processServer cfg b hdp sid st).state).outcome
        = .alreadyExists ∧
    (processServer cfg b hdp sid (processServer cfg b hdp sid st).state).state
        = (processServer cfg b hdp sid st).state ∧
    countContainersFor
        (processServer cfg b hdp sid (processServer cfg b hdp sid st).state).state
        sid = 1 := by
  have hhas : hasContainerFor st sid = false :=
    hasContainerFor_eq_false_of_count_zero st sid hzero
  have hskip : (b.listOk && hasContainerFor st sid) = false := by
    rw [hhas, Bool.and_false]
  obtain ⟨hst, hout, -⟩ :=
    processServer_creates cfg b md hdp sid st hmeta hskip hcreate himg
  have hlabel := getLabel_ccFinal cfg hdp sid md
  have hcount1 : countContainersFor (processServer cfg b hdp sid st).state sid = 1 := by
    rw [hst, countContainersFor_cons, hlabel]
    have hz : countContainersFor ⟨st.containers⟩ sid = 0 := hzero
    simp [hz]
  have hhas1 : hasContainerFor (processServer cfg b hdp sid st).state sid = true := by
    rw [hst, hasContainerFor_cons, hlabel]
    simp
  have hsecond := processServer_already_exists cfg b md hdp sid
    (processServer cfg b hdp sid st).state hmeta hlist hhas1
  refine ⟨hout, hcount1, ?_, ?_, ?_⟩
  · rw [hsecond]
  · rw [hsecond]
  · rw [hsecond]
    exact hcount1

/-- Instance of C2 at concrete inputs (empty initial daemon state). -/
theorem create_is_idempotent_witness :
    ({ meta := .ok {} } : ServerBehavior).meta = .ok {} ∧
    countContainersFor ⟨[]⟩ "bedrock-abc" = 0 ∧
    ((processServer {} { meta := .ok {} } "/opt/minecraft-servers" "bedrock-abc" ⟨[]⟩).outcome = .created ∧
      countContainersFor
        (processServer {} { meta := .ok {} } "/opt/minecraft-servers" "bedrock-abc" ⟨[]⟩).state
        "bedrock-abc" = 1 ∧
      (processServer {} { meta := .ok {} } "/opt/minecraft-servers" "bedrock-abc"
          (processServer {} { meta := .ok {} } "/opt/minecraft-servers" "bedrock-abc" ⟨[]⟩).state).outcome
        = .alreadyExists ∧
      (processServer {} { meta := .ok {} } "/opt/minecraft-servers" "bedrock-abc"
          (processServer {} { meta := .ok {} } "/opt/minecraft-servers" "bedrock-abc" ⟨[]⟩).state).state
        = (processServer {} { meta := .ok {} } "/opt/minecraft-servers" "bedrock-abc" ⟨[]⟩).state ∧
      countContainersFor
          (processServer {} { meta := .ok {} } "/opt/minecraft-servers" "bedrock-abc"
            (processServer {} { meta := .ok {} } "/opt/minecraft-servers" "bedrock-abc" ⟨[]⟩).state).state
          "bedrock-abc" = 1) :=
  ⟨rfl, rfl,
    create_is_idempotent {} { meta := .ok {} } {} "/opt/minecraft-servers" "bedrock-abc"
      ⟨[]⟩ rfl rfl rfl (Or.inl rfl) rfl⟩

/-- C9: when the pre-create container listing fails, the loop proceeds to
create anyway — even when a container labelled with the same server id
already exists, the step reports `created` and a duplicate is added. -/
theorem listFailure_creates_anyway (cfg : WorldCfg) (b : ServerBehavior)
    (md : Metadata) (hdp sid : String) (st : DockerState)
    (hmeta : b.meta = .ok md) (hlist : b.listOk = false)
    (hcreate : b.createOk = true)
    (himg : b.imagePresent = true ∨ b.pullOk = true)
    (hdup : hasContainerFor st sid = true) :
    (processServer cfg b hdp sid st).outcome = .created ∧
    countContainersFor (processServer cfg b hdp sid st).state sid
        = countContainersFor st sid + 1 ∧
    DockerCall.listContainers ∈ (processServer cfg b hdp sid st).trace := by
  have hskip : (b.listOk && hasContainerFor st sid) = false := by
    rw [hlist, Bool.false_and]
  obtain ⟨hst, hout, htr⟩ :=
    processServer_creates cfg b md hdp sid st hmeta hskip hcreate himg
  have hlabel := getLabel_ccFinal cfg hdp sid md
  refine ⟨hout, ?_, ?_⟩
  · rw [hst, countContainersFor_cons, hlabel]
    have : countContainersFor ⟨st.containers⟩ sid = countContainersFor st sid := rfl
    simp [this]
  · rw [htr]
    simp

/-- Instance of C9: a container labelled `bedrock-abc` already exists,
listing fails, and a second container with the same label is created. -/
theorem listFailure_creates_anyway_witness :
    ({ meta := .ok {}, listOk := false } : ServerBehavior).meta = .ok {} ∧
    ({ meta := .ok {}, listOk := false } : ServerBehavior).listOk = false ∧
    hasContainerFor
        ⟨[{ id := "bedrock-abc", state := "running",
            labels := [("server-id", "bedrock-abc")], mounts := [] }]⟩
        "bedrock-abc" = true ∧
    ((processServer {} { meta := .ok {}, listOk := false } "/opt/minecraft-servers"
        "bedrock-abc"
        ⟨[{ id := "bedrock-abc", state := "running",
            labels := [("server-id", "bedrock-abc")], mounts := [] }]⟩).outcome = .created ∧
      countContainersFor
          (processServer {} { meta := .ok {}, listOk := false } "/opt/minecraft-servers"
            "bedrock-abc"
            ⟨[{ id := "bedrock-abc", state := "running",
                labels := [("server-id", "bedrock-abc")], mounts := [] }]⟩).state
          "bedrock-abc"
        = countContainersFor
            ⟨[{ id := "bedrock-abc", state := "running",
                labels := [("server-id", "bedrock-abc")], mounts := [] }]⟩
            "bedrock-abc" + 1 ∧
      DockerCall.listContainers ∈
        (processServer {} { meta := .ok {}, listOk := false } "/opt/minecraft-servers"
          "bedrock-abc"
          ⟨[{ id := "bedrock-abc", state := "running",
              labels := [("server-id", "bedrock-abc")], mounts := [] }]⟩).trace) :=
  ⟨rfl, rfl, by decide,
    listFailure_creates_anyway {} { meta := .ok {}, listOk := false } {}
      "/opt/minecraft-servers" "bedrock-abc"
      ⟨[{ id := "bedrock-abc", state := "running",
          labels := [("server-id", "bedrock-abc")], mounts := [] }]⟩
      rfl rfl rfl (Or.inl rfl) (by decide)⟩

theorem runLoop_outcomes_length (cfg : WorldCfg) (beh : String → ServerBehavior)
    (hdp : String) :
    ∀ (dirs : List String) (st : DockerState),
      (runLoop cfg beh hdp dirs st).outcomes.length = dirs.length
  | [], _ => rfl
  | d :: rest, st => by
    simp [runLoop, runLoop_outcomes_length cfg beh hdp rest]

theorem runLoop_success_countP (cfg : WorldCfg) (beh : String → ServerBehavior)
    (hdp : String) :
    ∀ (dirs : List String) (st : DockerState),
      (runLoop cfg beh hdp dirs st).successCount
        = (runLoop cfg beh hdp dirs st).outcomes.countP (fun o => o == .created)
  | [], _ => rfl
  | d :: rest, st => by
    simp [runLoop, List.countP_cons, runLoop_success_countP cfg beh hdp rest]
    omega

theorem runLoop_failure_countP (cfg : WorldCfg) (beh : String → ServerBehavior)
    (hdp : String) :
    ∀ (dirs : List String) (st : DockerState),
      (runLoop cfg beh hdp dirs st).failureCount
        = (runLoop cfg beh hdp dirs st).outcomes.countP (fun o => o == .failed)
  | [], _ => rfl
  | d :: rest, st => by
    simp [runLoop, List.countP_cons, runLoop_failure_countP cfg beh hdp rest]
    omega

theorem runLoop_attempted_countP (cfg : WorldCfg) (beh : String → ServerBehavior)
    (hdp : String) :
    ∀ (dirs : List String) (st : DockerState),
      (runLoop cfg beh hdp dirs st).successCount
          + (runLoop cfg beh hdp dirs st).failureCount
        = (runLoop cfg beh hdp dirs st).outcomes.countP
            (fun o => o == .created || o == .failed)
  | [], _ => rfl
  | d :: rest, st => by
    have ih := runLoop_attempted_countP cfg beh hdp rest
      ((processServer cfg (beh d) hdp d st).state)
    simp only [runLoop, List.countP_cons]
    cases (processServer cfg (beh d) hdp d st).outcome <;> simp <;> omega

theorem runLoop_append (cfg : WorldCfg) (beh : String → ServerBehavior)
    (hdp : String) :
    ∀ (l₁ l₂ : List String) (st : DockerState),
      runLoop cfg beh hdp (l₁ ++ l₂) st =
        { state := (runLoop cfg beh hdp l₂ (runLoop cfg beh hdp l₁ st).state).state
          successCount := (runLoop cfg beh hdp l₁ st).successCount
            + (runLoop cfg beh hdp l₂ (runLoop cfg beh hdp l₁ st).state).successCount
          failureCount := (runLoop cfg beh hdp l₁ st).failureCount
            + (runLoop cfg beh hdp l₂ (runLoop cfg beh hdp l₁ st).state).failureCount
          outcomes := (runLoop cfg beh hdp l₁ st).outcomes
            ++ (runLoop cfg beh hdp l₂ (runLoop cfg beh hdp l₁ st).state).outcomes
          trace := (runLoop cfg beh hdp l₁ st).trace
            ++ (runLoop cfg beh hdp l₂ (runLoop cfg beh hdp l₁ st).state).trace }
  | [], l₂, st => by simp [runLoop]
  | d :: rest, l₂, st => by
    simp [runLoop, runLoop_append cfg beh hdp rest l₂, Nat.add_assoc,
      List.append_assoc]

/-- C10: in every batch (and hence after every iteration, by the
append decomposition), `successCount` counts exactly the `created`
outcomes, `failureCount` exactly the `failed` ones, their sum counts the
servers for which creation was actually attempted, every directory
produces exactly one outcome, and the two skip cases — a directory
without `metadata.json`, and a server whose container already exists —
leave the state untouched and are counted in neither total. -/
theorem batch_counts_invariant (cfg : WorldCfg) (beh : String → ServerBehavior)
    (hdp : String) (l₁ l₂ : List String) (st : DockerState) :
    (runLoop cfg beh hdp l₁ st).successCount
        = (runLoop cfg beh hdp l₁ st).outcomes.countP (fun o => o == .created) ∧
    (runLoop cfg beh hdp l₁ st).failureCount
        = (runLoop cfg beh hdp l₁ st).outcomes.countP (fun o => o == .failed) ∧
    (runLoop cfg beh hdp l₁ st).successCount + (runLoop cfg beh hdp l₁ st).failureCount
        = (runLoop cfg beh hdp l₁ st).outcomes.countP
            (fun o => o == .created || o == .failed) ∧
    (runLoop cfg beh hdp l₁ st).outcomes.length = l₁.length ∧
    (runLoop cfg beh hdp (l₁ ++ l₂) st).successCount
        = (runLoop cfg beh hdp l₁ st).successCount
          + (runLoop cfg beh hdp l₂ (runLoop cfg beh hdp l₁ st).state).successCount ∧
    (runLoop cfg beh hdp (l₁ ++ l₂) st).failureCount
        = (runLoop cfg beh hdp l₁ st).failureCount
          + (runLoop cfg beh hdp l₂ (runLoop cfg beh hdp l₁ st).state).failureCount ∧
    (∀ (b : ServerBehavior) (sid : String) (st' : DockerState), b.meta = .noFile →
        processServer cfg b hdp sid st'
          = { state := st', outcome := .skippedNoMeta, trace := [] }) ∧
    (∀ (b : ServerBehavior) (md : Metadata) (sid : String) (st' : DockerState),
        b.meta = .ok md → b.listOk = true → hasContainerFor st' sid = true →
        processServer cfg b hdp sid st'
          = { state := st', outcome := .alreadyExists,
              trace := [DockerCall.listContainers] }) := by
  refine ⟨runLoop_success_countP cfg beh hdp l₁ st,
    runLoop_failure_countP cfg beh hdp l₁ st,
    runLoop_attempted_countP cfg beh hdp l₁ st,
    runLoop_outcomes_length cfg beh hdp l₁ st, ?_, ?_, ?_, ?_⟩
  · rw [runLoop_append cfg beh hdp l₁ l₂ st]
  · rw [runLoop_append cfg beh hdp l₁ l₂ st]
  · exact fun b sid st' h => processServer_noFile cfg b hdp sid st' h
  · exact fun b md sid st' h1 h2 h3 =>
      processServer_already_exists cfg b md hdp sid st' h1 h2 h3

/-- Instance of C10 at concrete inputs: the count equation on a one-server
batch, the no-metadata skip, and the already-exists skip. -/
theorem batch_counts_invariant_witness :
    ((runLoop {} (fun _ => { meta := .ok ({} : Metadata) }) "/h" ["bedrock-1"] ⟨[]⟩).successCount
        + (runLoop {} (fun _ => { meta := .ok ({} : Metadata) }) "/h" ["bedrock-1"] ⟨[]⟩).failureCount
      = (runLoop {} (fun _ => { meta := .ok ({} : Metadata) }) "/h" ["bedrock-1"] ⟨[]⟩).outcomes.countP
          (fun o => o == .created || o == .failed)) ∧
    processServer {} { meta := .noFile } "/h" "bedrock-9" ⟨[]⟩
      = { state := ⟨[]⟩, outcome := .skippedNoMeta, trace := [] } ∧
    processServer {} { meta := .ok {} } "/h" "bedrock-abc"
        ⟨[{ id := "bedrock-abc", state := "running",
            labels := [("server-id", "bedrock-abc")], mounts := [] }]⟩
      = { state := ⟨[{ id := "bedrock-abc", state := "running",
                       labels := [("server-id", "bedrock-abc")], mounts := [] }]⟩,
          outcome := .alreadyExists, trace := [DockerCall.listContainers] } :=
  ⟨(batch_counts_invariant {} (fun _ => { meta := .ok ({} : Metadata) }) "/h"
      ["bedrock-1"] [] ⟨[]⟩).2.2.1,
   (batch_counts_invariant {} (fun _ => { meta := .ok ({} : Metadata) }) "/h"
      ["bedrock-1"] [] ⟨[]⟩).2.2.2.2.2.2.1 { meta := .noFile } "bedrock-9" ⟨[]⟩ rfl,
   (batch_counts_invariant {} (fun _ => { meta := .ok ({} : Metadata) }) "/h"
      ["bedrock-1"] [] ⟨[]⟩).2.2.2.2.2.2.2 { meta := .ok {} } {} "bedrock-abc"
      ⟨[{ id := "bedrock-abc", state := "running",
          labels := [("server-id", "bedrock-abc")], mounts := [] }]⟩
      rfl rfl (by decide)⟩

theorem runLoop_partial_failure (cfg : WorldCfg) (beh : String → ServerBehavior)
    (hdp : String) :
    ∀ (dirs : List String) (st : DockerState),
      dirs.Nodup →
      (∀ d ∈ dirs, (beh d).meta ≠ .noFile) →
      (∀ d ∈ dirs, (beh d).createOk = true ∧
        ((beh d).imagePresent = true ∨ (beh d).pullOk = true)) →
      (∀ d ∈ dirs, hasContainerFor st d = false) →
      (runLoop cfg beh hdp dirs st).failureCount
          = dirs.countP (fun d => (beh d).meta == .corrupt) ∧
      (runLoop cfg beh hdp dirs st).successCount
          + (runLoop cfg beh hdp dirs st).failureCount = dirs.length
  | [], st, _, _, _, _ => ⟨rfl, rfl⟩
  | d :: rest, st, hnodup, hnofile, hops, hnoex => by
    obtain ⟨hdnotin, hrestnodup⟩ := List.nodup_cons.mp hnodup
    cases hm : (beh d).meta with
    | noFile => exact absurd hm (hnofile d (List.mem_cons_self d rest))
    | corrupt =>
      have hstep := processServer_corrupt cfg (beh d) hdp d st hm
      have ih := runLoop_partial_failure cfg beh hdp rest st hrestnodup
        (fun d' hd' => hnofile d' (List.mem_cons_of_mem d hd'))
        (fun d' hd' => hops d' (List.mem_cons_of_mem d hd'))
        (fun d' hd' => hnoex d' (List.mem_cons_of_mem d hd'))
      have h1 := ih.1
      have h2 := ih.2
      simp only [runLoop, hstep, List.countP_cons, hm]
      simp
      omega
    | ok md =>
      have hopsd := hops d (List.mem_cons_self d rest)
      have hskip : ((beh d).listOk && hasContainerFor st d) = false := by
        rw [hnoex d (List.mem_cons_self d rest), Bool.and_false]
      obtain ⟨hst, hout, -⟩ :=
        processServer_creates cfg (beh d) md hdp d st hm hskip hopsd.1 hopsd.2
      have hnoex' : ∀ d' ∈ rest,
          hasContainerFor (processServer cfg (beh d) hdp d st).state d' = false := by
        intro d' hd'
        rw [hst, hasContainerFor_cons, getLabel_ccFinal]
        have hne : (some d : Option String) ≠ some d' :=
          fun h => hdnotin (Option.some.inj h ▸ hd')
        rw [beq_eq_false_iff_ne.mpr hne, Bool.false_or]
        exact hnoex d' (List.mem_cons_of_mem d hd')
      have ih := runLoop_partial_failure cfg beh hdp rest
        (processServer cfg (beh d) hdp d st).state hrestnodup
        (fun d' hd' => hnofile d' (List.mem_cons_of_mem d hd'))
        (fun d' hd' => hops d' (List.mem_cons_of_mem d hd'))
        hnoex'
      have h1 := ih.1
      have h2 := ih.2
      simp only [runLoop, hout, List.countP_cons, hm]
      simp
      omega

/-- C3: a batch over distinct server directories that all have a
`metadata.json` (readable or corrupted), with no pre-existing containers
and a working daemon, processes every directory (one outcome each) and
reports exactly one failure per corrupted record and one success per
readable one — never an all-or-nothing result. -/
theorem recreate_partial_failure (cfg : WorldCfg) (beh : String → ServerBehavior)
    (res : Except String (List ContainerInfo)) (dirs : List String)
    (st : DockerState)
    (hnodup : dirs.Nodup)
    (hnofile : ∀ d ∈ dirs, (beh d).meta ≠ .noFile)
    (hops : ∀ d ∈ dirs, (beh d).createOk = true ∧
      ((beh d).imagePresent = true ∨ (beh d).pullOk = true))
    (hnoex : ∀ d ∈ dirs, hasContainerFor st d = false) :
    (recreateServers cfg beh res dirs st).failureCount
        = dirs.countP (fun d => (beh d).meta == .corrupt) ∧
    (recreateServers cfg beh res dirs st).successCount
        = dirs.length - dirs.countP (fun d => (beh d).meta == .corrupt) ∧
    (recreateServers cfg beh res dirs st).outcomes.length = dirs.length := by
  have h := runLoop_partial_failure cfg beh (getHostDataPath res cfg.dataDir)
    dirs st hnodup hnofile hops hnoex
  have hlen := runLoop_outcomes_length cfg beh (getHostDataPath res cfg.dataDir) dirs st
  have h1 := h.1
  have h2 := h.2
  have hs : (recreateServers cfg beh res dirs st).successCount
      = (runLoop cfg beh (getHostDataPath res cfg.dataDir) dirs st).successCount := rfl
  have hf : (recreateServers cfg beh res dirs st).failureCount
      = (runLoop cfg beh (getHostDataPath res cfg.dataDir) dirs st).failureCount := rfl
  have ho : (recreateServers cfg beh res dirs st).outcomes.length
      = (runLoop cfg beh (getHostDataPath res cfg.dataDir) dirs st).outcomes.length := rfl
  refine ⟨?_, ?_, ?_⟩
  · omega
  · omega
  · rw [ho, hlen]

/-- Instance of C3: N = 3 directories, M = 1 corrupted; the batch reports
1 failure, 2 successes, and 3 outcomes. -/
theorem recreate_partial_failure_witness :
    ["bedrock-1", "bedrock-2", "bedrock-3"].Nodup ∧
    ["bedrock-1", "bedrock-2", "bedrock-3"].countP
        (fun d => (behWithOneCorrupt d).meta == .corrupt) = 1 ∧
    ((recreateServers {} behWithOneCorrupt (.error "boom")
          ["bedrock-1", "bedrock-2", "bedrock-3"] ⟨[]⟩).failureCount
        = ["bedrock-1", "bedrock-2", "bedrock-3"].countP
            (fun d => (behWithOneCorrupt d).meta == .corrupt) ∧
      (recreateServers {} behWithOneCorrupt (.error "boom")
          ["bedrock-1", "bedrock-2", "bedrock-3"] ⟨[]⟩).successCount
        = ["bedrock-1", "bedrock-2", "bedrock-3"].length
          - ["bedrock-1", "bedrock-2", "bedrock-3"].countP
              (fun d => (behWithOneCorrupt d).meta == .corrupt) ∧
      (recreateServers {} behWithOneCorrupt (.error "boom")
          ["bedrock-1", "bedrock-2", "bedrock-3"] ⟨[]⟩).outcomes.length
        = ["bedrock-1", "bedrock-2", "bedrock-3"].length) :=
  ⟨by decide, by decide,
    recreate_partial_failure {} behWithOneCorrupt (.error "boom")
      ["bedrock-1", "bedrock-2", "bedrock-3"] ⟨[]⟩
      (by decide) (by decide) (by decide) (by decide)⟩

/-- C8: whenever a loop iteration reaches `createContainer`, the image
inspect happened strictly before it, and if the image was absent locally,
a successful pull also happened strictly before it (everything before the
first `createContainer` call is in the `takeWhile` prefix). -/
theorem image_ready_before_create (cfg : WorldCfg) (b : ServerBehavior)
    (hdp sid : String) (st : DockerState) :
    DockerCall.createContainer ∈ (processServer cfg b hdp sid st).trace →
      DockerCall.imageInspect ∈
        ((processServer cfg b hdp sid st).trace.takeWhile
          (fun c => !(c == DockerCall.createContainer))) ∧
      (b.imagePresent = false →
        b.pullOk = true ∧
        DockerCall.pullImage ∈
          ((processServer cfg b hdp sid st).trace.takeWhile
            (fun c => !(c == DockerCall.createContainer)))) := by
  cases hm : b.meta with
  | noFile =>
    rw [processServer_noFile cfg b hdp sid st hm]
    intro h
    simp at h
  | corrupt =>
    rw [processServer_corrupt cfg b hdp sid st hm]
    intro h
    simp at h
  | ok md =>
    by_cases hsk : (b.listOk && hasContainerFor st sid) = true
    · obtain ⟨hl, hh⟩ : b.listOk = true ∧ hasContainerFor st sid = true := by
        simpa using hsk
      rw [processServer_already_exists cfg b md hdp sid st hm hl hh]
      intro h
      simp at h
    · have hskf : (b.listOk && hasContainerFor st sid) = false := by
        cases hb : (b.listOk && hasContainerFor st sid) with
        | false => rfl
        | true => exact absurd hb hsk
      cases hcr : b.createOk with
      | true =>
        cases himg : b.imagePresent with
        | true =>
          obtain ⟨-, -, htr⟩ :=
            processServer_creates cfg b md hdp sid st hm hskf hcr (Or.inl himg)
          rw [himg] at htr
          simp only [if_true, List.nil_append, List.cons_append] at htr
          rw [htr]
          exact fun _ => ⟨by decide, fun hfalse => absurd hfalse (by decide)⟩
        | false =>
          cases hpull : b.pullOk with
          | true =>
            obtain ⟨-, -, htr⟩ :=
              processServer_creates cfg b md hdp sid st hm hskf hcr (Or.inr hpull)
            rw [himg] at htr
            simp only [Bool.false_eq_true, if_false, List.cons_append,
              List.nil_append] at htr
            rw [htr]
            exact fun _ => ⟨by decide, fun _ => ⟨rfl, by decide⟩⟩
          | false =>
            have htr : (processServer cfg b hdp sid st).trace
                = [DockerCall.listContainers, DockerCall.imageInspect,
                   DockerCall.pullImage] := by
              unfold processServer
              rw [hm]
              simp [hskf, himg, hpull]
            rw [htr]
            intro h
            simp at h
      | false =>
        cases himg : b.imagePresent with
        | true =>
          have htr : (processServer cfg b hdp sid st).trace
              = [DockerCall.listContainers, DockerCall.imageInspect,
                 DockerCall.createContainer] := by
            unfold processServer
            rw [hm]
            simp only [hskf, Bool.false_eq_true, if_false, himg, if_true]
            unfold finishCreate
            simp [hcr]
          rw [htr]
          exact fun _ => ⟨by decide, fun hfalse => absurd hfalse (by decide)⟩
        | false =>
          cases hpull : b.pullOk with
          | true =>
            have htr : (processServer cfg b hdp sid st).trace
                = [DockerCall.listContainers, DockerCall.imageInspect,
                   DockerCall.pullImage, DockerCall.createContainer] := by
              unfold processServer
              rw [hm]
              simp only [hskf, Bool.false_eq_true, if_false, himg, hpull, if_true]
              unfold finishCreate
              simp [hcr]
            rw [htr]
            exact fun _ => ⟨by decide, fun _ => ⟨rfl, by decide⟩⟩
          | false =>
            have htr : (processServer cfg b hdp sid st).trace
                = [DockerCall.listContainers, DockerCall.imageInspect,
                   DockerCall.pullImage] := by
              unfold processServer
              rw [hm]
              simp [hskf, himg, hpull]
            rw [htr]
            intro h
            simp at h

/-- Instance of C8: image absent locally, so the pull completes before
`createContainer` is invoked. -/
theorem image_ready_before_create_witness :
    DockerCall.createContainer ∈
      (processServer {} { meta := .ok {}, imagePresent := false } "/h"
        "bedrock-abc" ⟨[]⟩).trace ∧
    (DockerCall.imageInspect ∈
        ((processServer {} { meta := .ok {}, imagePresent := false } "/h"
          "bedrock-abc" ⟨[]⟩).trace.takeWhile
          (fun c => !(c == DockerCall.createContainer))) ∧
      (({ meta := .ok {}, imagePresent := false } : ServerBehavior).imagePresent = false →
        ({ meta := .ok {}, imagePresent := false } : ServerBehavior).pullOk = true ∧
        DockerCall.pullImage ∈
          ((processServer {} { meta := .ok {}, imagePresent := false } "/h"
            "bedrock-abc" ⟨[]⟩).trace.takeWhile
            (fun c => !(c == DockerCall.createContainer))))) :=
  ⟨by decide,
    image_ready_before_create {} { meta := .ok {}, imagePresent := false } "/h"
      "bedrock-abc" ⟨[]⟩ (by decide)⟩

theorem processServer_no_resolve (cfg : WorldCfg) (b : ServerBehavior)
    (hdp sid : String) (st : DockerState) :
    DockerCall.resolveHostPath ∉ (processServer cfg b hdp sid st).trace := by
  cases hm : b.meta with
  | noFile => rw [processServer_noFile cfg b hdp sid st hm]; simp
  | corrupt => rw [processServer_corrupt cfg b hdp sid st hm]; simp
  | ok md =>
    unfold processServer
    rw [hm]
    by_cases hsk : (b.listOk && hasContainerFor st sid) = true
    · simp [hsk]
    · have hskf : (b.listOk && hasContainerFor st sid) = false := by
        cases hb : (b.listOk && hasContainerFor st sid) with
        | false => rfl
        | true => exact absurd hb hsk
      simp only [hskf, Bool.false_eq_true, if_false]
      unfold finishCreate
      cases b.imagePresent <;> cases b.pullOk <;> cases b.createOk <;> simp

theorem runLoop_resolve_count (cfg : WorldCfg) (beh : String → ServerBehavior)
    (hdp : String) :
    ∀ (dirs : List String) (st : DockerState),
      (runLoop cfg beh hdp dirs st).trace.count DockerCall.resolveHostPath = 0
  | [], _ => rfl
  | d :: rest, st => by
    simp only [runLoop, List.count_append]
    rw [runLoop_resolve_count cfg beh hdp rest,
      List.count_eq_zero.mpr (processServer_no_resolve cfg (beh d) hdp d st)]

theorem findDataMount_none : ∀ (cs : List ContainerInfo),
    (∀ c ∈ cs, ∀ m ∈ c.mounts, m.destination ≠ "/app/minecraft-data") →
    findDataMount cs = none
  | [], _ => rfl
  | c :: rest, h => by
    unfold findDataMount
    have hf : c.mounts.find? (fun m => m.destination == "/app/minecraft-data")
        = none := by
      rw [List.find?_eq_none]
      intro m hm heq
      exact h c (List.mem_cons_self c rest) m hm (beq_iff_eq.mp heq)
    rw [hf]
    exact findDataMount_none rest (fun c' hc' => h c' (List.mem_cons_of_mem c hc'))

theorem find?_eq_some_split {α : Type} (p : α → Bool) :
    ∀ (l : List α) (x : α), l.find? p = some x →
    ∃ pre suf, l = pre ++ x :: suf ∧ (∀ y ∈ pre, p y = false) ∧ p x = true
  | [], x, h => by simp at h
  | a :: l, x, h => by
    cases hp : p a with
    | true =>
      rw [List.find?_cons_of_pos _ hp] at h
      obtain rfl : a = x := Option.some.inj h
      exact ⟨[], l, rfl, by simp, hp⟩
    | false =>
      rw [List.find?_cons_of_neg _ (by simp [hp])] at h
      obtain ⟨pre, suf, rfl, hpre, hx⟩ := find?_eq_some_split p l x h
      refine ⟨a :: pre, suf, rfl, ?_, hx⟩
      intro y hy
      rcases List.mem_cons.mp hy with rfl | hmem
      · exact hp
      · exact hpre y hmem

theorem findDataMount_first : ∀ (cs : List ContainerInfo) (m : Mount),
    findDataMount cs = some m →
    ∃ pre c suf, cs = pre ++ c :: suf ∧
      (∀ c' ∈ pre, ∀ m' ∈ c'.mounts, m'.destination ≠ "/app/minecraft-data") ∧
      ∃ mpre msuf, c.mounts = mpre ++ m :: msuf ∧
        (∀ m' ∈ mpre, m'.destination ≠ "/app/minecraft-data") ∧
        m.destination = "/app/minecraft-data"
  | [], m, h => by simp [findDataMount] at h
  | c :: rest, m, h => by
    unfold findDataMount at h
    cases hf : c.mounts.find? (fun mm => mm.destination == "/app/minecraft-data") with
    | some mm =>
      rw [hf] at h
      have hm : mm = m := Option.some.inj h
      obtain ⟨mpre, msuf, hsplit, hmpre, hp⟩ :=
        find?_eq_some_split (fun mm => mm.destination == "/app/minecraft-data")
          c.mounts mm hf
      rw [hm] at hsplit hp
      refine ⟨[], c, rest, rfl, by simp, mpre, msuf, hsplit, ?_, beq_iff_eq.mp hp⟩
      intro m' hm'
      exact beq_eq_false_iff_ne.mp (hmpre m' hm')
    | none =>
      rw [hf] at h
      obtain ⟨pre, c', suf, hrest, hpre, hfirst⟩ := findDataMount_first rest m h
      refine ⟨c :: pre, c', suf, by rw [hrest]; rfl, ?_, hfirst⟩
      intro c'' hc''
      rcases List.mem_cons.mp hc'' with rfl | hmem
      · intro m' hm' heq
        exact List.find?_eq_none.mp hf m' hm' (beq_iff_eq.mpr heq)
      · exact hpre c'' hmem

theorem findDataMount_exists : ∀ (cs : List ContainerInfo),
    (∃ c ∈ cs, ∃ m ∈ c.mounts, m.destination = "/app/minecraft-data") →
    ∃ m, findDataMount cs = some m
  | [], h => by
    rcases h with ⟨c, hc, -⟩
    exact absurd hc (List.not_mem_nil c)
  | c :: rest, h => by
    unfold findDataMount
    cases hf : c.mounts.find? (fun mm => mm.destination == "/app/minecraft-data") with
    | some mm => exact ⟨mm, rfl⟩
    | none =>
      rcases h with ⟨c', hc', m, hm, hd⟩
      rcases List.mem_cons.mp hc' with rfl | hrest
      · have hno := List.find?_eq_none.mp hf m hm
        exact absurd (beq_iff_eq.mpr hd) hno
      · exact findDataMount_exists rest ⟨c', hrest, m, hm, hd⟩

/-- C7 as stated fails on the code: `getHostDataPath` lists ALL
containers (`{ all: true }`) and never checks the running state, so a
stopped container's mount source is used even though no already-running
instance has the mount; the claim demands the configured default here. -/
theorem hostDataPath_uses_stopped_container :
    ({ id := "c1", state := "exited", labels := [],
       mounts := [{ destination := "/app/minecraft-data",
                    source := "/srv/minecraft-data" }] } : ContainerInfo).state
      ≠ "running" ∧
    getHostDataPath
        (.ok [{ id := "c1", state := "exited", labels := [],
                mounts := [{ destination := "/app/minecraft-data",
                             source := "/srv/minecraft-data" }] }])
        "/opt/minecraft-servers"
      = "/srv/minecraft-data" ∧
    ("/srv/minecraft-data" : String) ≠ "/opt/minecraft-servers" := by
  exact ⟨by decide, by decide, by decide⟩

/-- C7 amended: the host data root is resolved exactly once per batch;
when listing fails, or no listed container (running or stopped) has a
mount targeting `/app/minecraft-data`, the configured default is
returned; otherwise the result is the source of the FIRST matching
mount of the FIRST listed container that has one: the container list
splits as `pre ++ c :: suf` with no matching mount anywhere in `pre`,
and the mounts of `c` split as `mpre ++ m :: msuf` with no match in
`mpre`, and the result is `m.source`. -/
theorem hostDataPath_resolution (cfg : WorldCfg) (beh : String → ServerBehavior)
    (res : Except String (List ContainerInfo)) (dirs : List String)
    (st : DockerState) (dflt : String) :
    (recreateServers cfg beh res dirs st).trace.count DockerCall.resolveHostPath = 1 ∧
    (∀ e, res = .error e → getHostDataPath res dflt = dflt) ∧
    (∀ cs, res = .ok cs →
      (∀ c ∈ cs, ∀ m ∈ c.mounts, m.destination ≠ "/app/minecraft-data") →
      getHostDataPath res dflt = dflt) ∧
    (∀ cs, res = .ok cs →
      (∃ c ∈ cs, ∃ m ∈ c.mounts, m.destination = "/app/minecraft-data") →
      ∃ pre c suf, cs = pre ++ c :: suf ∧
        (∀ c' ∈ pre, ∀ m' ∈ c'.mounts, m'.destination ≠ "/app/minecraft-data") ∧
        ∃ mpre m msuf, c.mounts = mpre ++ m :: msuf ∧
          (∀ m' ∈ mpre, m'.destination ≠ "/app/minecraft-data") ∧
          m.destination = "/app/minecraft-data" ∧
          getHostDataPath res dflt = m.source) := by
  refine ⟨?_, ?_, ?_, ?_⟩
  · show (DockerCall.resolveHostPath ::
        (runLoop cfg beh (getHostDataPath res cfg.dataDir) dirs st).trace).count
        DockerCall.resolveHostPath = 1
    rw [List.count_cons]
    rw [runLoop_resolve_count cfg beh (getHostDataPath res cfg.dataDir) dirs st]
    simp
  · rintro e rfl
    rfl
  · rintro cs rfl hnone
    show getHostDataPath (.ok cs) dflt = dflt
    simp [getHostDataPath, findDataMount_none cs hnone]
  · rintro cs rfl hex
    obtain ⟨m, hm⟩ := findDataMount_exists cs hex
    obtain ⟨pre, c, suf, hcs, hpre, mpre, msuf, hmounts, hmpre, hdest⟩ :=
      findDataMount_first cs m hm
    refine ⟨pre, c, suf, hcs, hpre, mpre, m, msuf, hmounts, hmpre, hdest, ?_⟩
    show getHostDataPath (.ok cs) dflt = m.source
    simp [getHostDataPath, hm]

/-- Instance of C7's amended claim: one resolution per batch, and the
first matching mount of the first matching listed container is used. -/
theorem hostDataPath_resolution_witness :
    (recreateServers {} (fun _ => { meta := .ok {} }) (.ok [runningManager])
        ["bedrock-1"] ⟨[]⟩).trace.count DockerCall.resolveHostPath = 1 ∧
    (∃ pre c suf, [runningManager] = pre ++ c :: suf ∧
      (∀ c' ∈ pre, ∀ m' ∈ c'.mounts, m'.destination ≠ "/app/minecraft-data") ∧
      ∃ mpre m msuf, c.mounts = mpre ++ m :: msuf ∧
        (∀ m' ∈ mpre, m'.destination ≠ "/app/minecraft-data") ∧
        m.destination = "/app/minecraft-data" ∧
        getHostDataPath (.ok [runningManager]) "/opt/minecraft-servers" = m.source) :=
  ⟨(hostDataPath_resolution {} (fun _ => { meta := .ok {} }) (.ok [runningManager])
      ["bedrock-1"] ⟨[]⟩ "/opt/minecraft-servers").1,
   (hostDataPath_resolution {} (fun _ => { meta := .ok {} }) (.ok [runningManager])
      ["bedrock-1"] ⟨[]⟩ "/opt/minecraft-servers").2.2.2 [runningManager] rfl
      ⟨runningManager, by decide,
        { destination := "/app/minecraft-data", source := "/srv/minecraft-data" },
        by decide, by decide⟩⟩

end BedrockManager
